import Mathlib

/-!
Shallow embedding of the escape-room game core (src/escape/room.py and
src/escape/state.py) and proofs about the frozen specification claims.

Modelling conventions:
  * Python machine numbers are modelled as `Nat`/`Int`; Python floats
    (used only for slopes in `quadrant` and for the arithmetic-question
    operands) are modelled as exact rationals `ℚ`.
  * The screen rectangle `RECT` comes from the external `kitty-common`
    package (not part of this repository), so its width and height are
    carried as parameters `W H : ℚ`.
  * pygame rendering data (fonts, surfaces, pixel positions of rendered
    glyphs) is out of scope per the spec; of the `_KeyPadText` named tuple
    we keep the fields the state machine reads and writes (`value`,
    `color`); `pos`/`font` are render-only cosmetics.
  * pygame events carry `type`, `key`, `unicode`; the `unicode` attribute
    of a key event is a string of length at most one, modelled as
    `Option Char` (`none` for the empty string).
  * A Python `assert` failure (an AssertionError crash) is modelled by
    returning `none` from an `Option`-valued function.
  * The global `random` generator is modelled as a stream of naturals
    threaded through the state; `random.randint a b` consumes one stream
    value `v` and yields `a + v % (b - a + 1)`.
-/

namespace Escape

/-- Enumeration `View` from room.py (values 0..8 in declaration order). -/
inductive View where
  | LEFT_WALL
  | CEILING
  | RIGHT_WALL
  | FLOOR
  | FRONT_WALL
  | BACK_WALL
  | DEFAULT
  | LEFT_WINDOW
  | FRONT_KEYPAD
deriving DecidableEq, Repr, Fintype

/-- Enumeration `Quadrant` from room.py (values 0..3 in declaration order). -/
inductive Quadrant where
  | LEFT
  | TOP
  | RIGHT
  | BOTTOM
deriving DecidableEq, Repr, Fintype

/-- Numeric `.value` of a `Quadrant` member. -/
def Quadrant.val : Quadrant → ℕ
  | .LEFT => 0
  | .TOP => 1
  | .RIGHT => 2
  | .BOTTOM => 3

/-- Python `View(quadrant.value)`: the view whose enum value equals the
quadrant's value (LEFT↦LEFT_WALL, TOP↦CEILING, RIGHT↦RIGHT_WALL,
BOTTOM↦FLOOR). -/
def viewFromQuadrant : Quadrant → View
  | .LEFT => .LEFT_WALL
  | .TOP => .CEILING
  | .RIGHT => .RIGHT_WALL
  | .BOTTOM => .FLOOR

/-- The `ROTATIONS` table of room.py as a partial map.  Entries stored in
the Python dict as raw ints (`View.X.value`) and those stored as enum
members both go through `View(...)` at the use site in state.py, so the
table is modelled directly with `View` values.  The FRONT_WALL row is the
comprehension `{quad: (2 - quad.value) % 4 for quad in Quadrant}`, i.e.
LEFT↦2 (RIGHT_WALL), TOP↦1 (CEILING), RIGHT↦0 (LEFT_WALL),
BOTTOM↦3 (FLOOR); BACK_WALL and DEFAULT have empty rows. -/
def ROTATIONS : View → Quadrant → Option View
  | .LEFT_WALL, .LEFT => some .FRONT_WALL
  | .LEFT_WALL, .RIGHT => some .BACK_WALL
  | .LEFT_WALL, _ => none
  | .CEILING, .TOP => some .FRONT_WALL
  | .CEILING, .BOTTOM => some .BACK_WALL
  | .CEILING, _ => none
  | .RIGHT_WALL, .LEFT => some .BACK_WALL
  | .RIGHT_WALL, .RIGHT => some .FRONT_WALL
  | .RIGHT_WALL, _ => none
  | .FLOOR, .TOP => some .BACK_WALL
  | .FLOOR, .BOTTOM => some .FRONT_WALL
  | .FLOOR, _ => none
  | .FRONT_WALL, .LEFT => some .RIGHT_WALL
  | .FRONT_WALL, .TOP => some .CEILING
  | .FRONT_WALL, .RIGHT => some .LEFT_WALL
  | .FRONT_WALL, .BOTTOM => some .FLOOR
  | .BACK_WALL, _ => none
  | .DEFAULT, _ => none
  | .LEFT_WINDOW, _ => some .LEFT_WALL
  | .FRONT_KEYPAD, _ => some .FRONT_WALL

/-- The rotation lookup performed by `Game._handle_generic_click`
(state.py): `room.View(room.ROTATIONS[self.view].get(quadrant,
quadrant.value))` — table entry when present, otherwise the quadrant
value taken as a view index. -/
def rotate (v : View) (q : Quadrant) : View :=
  (ROTATIONS v q).getD (viewFromQuadrant q)

/-- Function `at_edge(pos)` of room.py, with the screen size `(W, H)` of
the external `RECT` passed explicitly. -/
def at_edge (W H : ℚ) (x y : ℚ) : Bool :=
  x ≤ 10 || y ≤ 10 || W - x ≤ 10 || H - y ≤ 10

/-- Function `quadrant(pos)` of room.py, with the screen size `(W, H)` of
the external `RECT` passed explicitly; float slopes are modelled as exact
rationals. -/
def quadrant (W H : ℚ) (x y : ℚ) : Quadrant :=
  if x = 0 then
    -- To avoid divide-by-zero, special-case the leftmost edge.
    Quadrant.LEFT
  else
    let down_slope := y / x
    let up_slope := (H - y) / x
    let wall_slope := H / W
    let above_down_diagonal := down_slope < wall_slope
    let above_up_diagonal := up_slope > wall_slope
    if ¬ above_down_diagonal ∧ above_up_diagonal then Quadrant.LEFT
    else if above_down_diagonal ∧ above_up_diagonal then Quadrant.TOP
    else if above_down_diagonal ∧ ¬ above_up_diagonal then Quadrant.RIGHT
    else Quadrant.BOTTOM

/-- Colors from the repository's `color` module.  Modelled from the spec:
the color constants module is not under src/; only the identities of the
constants matter to the state machine (keypad text blinks between BLACK
and RED, the ending recolors to BLUE), not their RGB values. -/
inductive Color where
  | BLACK
  | RED
  | BLUE
  | GREY
  | DARK_GREY_1
  | DARK_GREY_2
deriving DecidableEq, Repr

/-- Relevant pygame event types: `KEYDOWN`, `MOUSEBUTTONDOWN`, `QUIT`,
the custom `USEREVENT` timer tick used by `KeyPadTest`, and a catch-all
for every other type. -/
inductive EventType where
  | KEYDOWN
  | MOUSEBUTTONDOWN
  | QUIT
  | TICK
  | OTHER
deriving DecidableEq, Repr

/-- Relevant pygame key codes: `K_BACKSPACE` and a catch-all. -/
inductive KeyCode where
  | BACKSPACE
  | OTHER
deriving DecidableEq, Repr

/-- A pygame event as seen by the state machine: its type, key code and
unicode text (for key events; `none` models the empty string, since the
`unicode` of a key event has length at most one). -/
structure Event where
  etype : EventType
  key : KeyCode
  unicode : Option Char
deriving DecidableEq, Repr

/-- Python `event.unicode.isdigit()` on the at-most-one-character
`unicode` string (empty string is not a digit). -/
def pyIsDigit : Option Char → Bool
  | some c => c.isDigit
  | none => false

/-- Python `string.printable`: digits, ASCII letters, punctuation and
whitespace. -/
def stringPrintable : String :=
  "0123456789abcdefghijklmnopqrstuvwxyzABCDEFGHIJKLMNOPQRSTUVWXYZ!\"#$%&\x27()*+,-./:;<=>?@[\\]^_\x60\x7b|\x7d~ \t\n\r\x0b\x0c"

/-- Python `s[:-1]`: drop the last character. -/
def pyDropLast (s : String) : String :=
  String.mk s.data.dropLast

/-- The shared text-entry behaviour `_TextMixin.send` of room.py,
parameterised (like the mixin) over the concrete puzzle's text
getter/setter, `accept_event`, `to_char` and `_MAX_TEXT_LENGTH`.
Returns the updated object and `none` / `some false` / `some true` for
Python's `None` / `False` / `True` ("not consumed" / "consumed, no
redraw" / "consumed, redraw"). -/
def textSend {σ : Type} (get : σ → String) (set : σ → String → σ)
    (accept : σ → Event → Bool) (toChar : σ → Event → Option Char)
    (maxLen : ℕ) (st : σ) (e : Event) : σ × Option Bool :=
  if ¬ accept st e then (st, none)
  else if e.key = KeyCode.BACKSPACE then
    -- Backspace is consumed as deletion of the rightmost character;
    -- whether it requires a redraw depends on whether there exists a
    -- character to delete.
    let redraw : Bool := get st ≠ ""
    (set st (pyDropLast (get st)), some redraw)
  else
    match toChar st e with
    | none => (st, none)
    | some c =>
      if maxLen ≤ (get st).length then (st, some false)
      else (set st ((get st).push c), some true)

/-- The chest combination lock (`Chest` over `_ChestBase`): a bare text
buffer; rendering state is out of scope. -/
structure Chest where
  text : String
deriving DecidableEq, Repr

/-- Property `_ChestBase.opened`: the buffer equals the secret "AYP". -/
def Chest.opened (c : Chest) : Bool :=
  c.text == "AYP"

/-- Method `Chest.accept_event`: key-down events only, and no further
input once opened. -/
def Chest.accept_event (c : Chest) (e : Event) : Bool :=
  e.etype == EventType.KEYDOWN && ! c.opened

/-- Method `Chest.to_char`: aside from backspace, only printable
characters are consumed; input is upper-cased.  (Membership of the
one-character `unicode` in `string.printable` is membership of the
character in the printable character list.) -/
def Chest.to_char (_c : Chest) (e : Event) : Option Char :=
  match e.unicode with
  | none => none
  | some u =>
    if ¬ stringPrintable.data.contains u then none else some u.toUpper

/-- Chest `_MAX_TEXT_LENGTH`. -/
def Chest.maxTextLength : ℕ := 3

/-- Method `Chest.send` (inherited from `_TextMixin`). -/
def Chest.send (c : Chest) (e : Event) : Chest × Option Bool :=
  textSend Chest.text (fun _ v => { text := v }) Chest.accept_event
    Chest.to_char Chest.maxTextLength c e

/-- The keypad (`KeyPad`): the `value` and `color` fields of its
`_KeyPadText` (the render-only `pos`/`font` fields are omitted) and the
separate `_opening_input` buffer. -/
structure KeyPad where
  textValue : String
  textColor : Color
  openingInput : String
deriving DecidableEq, Repr

/-- Method `KeyPad.set_initial_text`: a fresh `_KeyPadText` with empty
value and BLACK color, and an empty opening input. -/
def KeyPad.set_initial_text (_k : KeyPad) : KeyPad :=
  { textValue := "", textColor := Color.BLACK, openingInput := "" }

/-- The keypad state right after `KeyPad.__init__` (which calls
`set_initial_text`). -/
def KeyPad.initial : KeyPad :=
  KeyPad.set_initial_text ⟨"", Color.BLACK, ""⟩

/-- Property `KeyPad.opened`: the opening input equals the secret
"9710". -/
def KeyPad.opened (k : KeyPad) : Bool :=
  k.openingInput == "9710"

/-- The `KeyPad.text` property setter: once opened, only the displayed
value changes (`_resized_text` additionally recomputes the render-only
font and position); before opening, the displayed value and the opening
input are assigned together. -/
def KeyPad.setText (k : KeyPad) (v : String) : KeyPad :=
  if k.opened then { k with textValue := v }
  else { k with textValue := v, openingInput := v }

/-- The `KeyPad.text_color` property setter. -/
def KeyPad.setTextColor (k : KeyPad) (c : Color) : KeyPad :=
  { k with textColor := c }

/-- Method `KeyPad.accept_event`: key-down events only, and no further
raw input once opened. -/
def KeyPad.accept_event (k : KeyPad) (e : Event) : Bool :=
  e.etype == EventType.KEYDOWN && ! k.opened

/-- Method `KeyPad.to_char`: the unicode character if it is a digit. -/
def KeyPad.to_char (_k : KeyPad) (e : Event) : Option Char :=
  match e.unicode with
  | none => none
  | some u => if u.isDigit then some u else none

/-- KeyPad `_MAX_TEXT_LENGTH`. -/
def KeyPad.maxTextLength : ℕ := 4

/-- Method `KeyPad.send` (inherited from `_TextMixin`; text access goes
through the `text` property, hence through `setText`). -/
def KeyPad.send (k : KeyPad) (e : Event) : KeyPad × Option Bool :=
  textSend KeyPad.textValue KeyPad.setText KeyPad.accept_event
    KeyPad.to_char KeyPad.maxTextLength k e

/-- The door (`Door`): its flags and displayed text; rendering state is
out of scope. -/
structure Door where
  revealed : Bool
  lightSwitchOn : Bool
  text : String
deriving DecidableEq, Repr

/-- The door state right after `Door.__init__`. -/
def Door.initial : Door :=
  { revealed := false, lightSwitchOn := true, text := "" }

/-- The global `random` generator, modelled as a stream of naturals with
a cursor. -/
structure Rng where
  vals : ℕ → ℕ
  idx : ℕ

/-- Python `random.randint(lo, hi)` (inclusive bounds): consume one
stream value `v` and return `lo + v % (hi - lo + 1)`, so that every
result of the real uniform draw is realised by some stream. -/
def randint (lo hi : ℕ) (r : Rng) : ℕ × Rng :=
  (lo + r.vals r.idx % (hi + 1 - lo), { r with idx := r.idx + 1 })

/-- Enumeration `_QuestionState`; `value` below gives the associated
display strings (ACTIVE='', OK='OK', ERR='ERR'). -/
inductive QuestionState where
  | ACTIVE
  | OK
  | ERR
deriving DecidableEq, Repr

/-- The `.value` string of a `_QuestionState` member. -/
def QuestionState.value : QuestionState → String
  | .ACTIVE => ""
  | .OK => "OK"
  | .ERR => "ERR"

/-- A question 4-tuple `(operand1, operator, operand2, answer)`, all as
display strings. -/
abbrev QTuple := String × String × String × String

/-- Class `_Question`: a value tuple, a solved state and a tick
counter. -/
structure Question where
  value : QTuple
  state : QuestionState
  numTicks : ℕ
deriving DecidableEq, Repr

/-- Constructor `_Question.__init__`. -/
def Question.mk' (v : QTuple) : Question :=
  { value := v, state := QuestionState.ACTIVE, numTicks := 0 }

/-- Method `_Question.solve`: the state becomes OK iff the answered
character equals the question's answer string (`self.value[-1]`). -/
def Question.solve (q : Question) (answer : Char) : Question :=
  if String.singleton answer = q.value.2.2.2 then
    { q with state := QuestionState.OK }
  else
    { q with state := QuestionState.ERR }

/-- Method `_Question.tick`: increment the counter; past one tick the
state is forced to ERR. -/
def Question.tick (q : Question) : Question :=
  let n := q.numTicks + 1
  { q with numTicks := n,
           state := if 1 < n then QuestionState.ERR else q.state }

/-- The distinguished `_SPECIAL_QUESTION` `('1', '+', '1', '3')`. -/
def SPECIAL_QUESTION : QTuple := ("1", "+", "1", "3")

/-- The `_OPERATOR_REPR` symbol for operator index 0..3
(`int.__add__, int.__mul__, int.__sub__, int.__truediv__`). -/
def opRepr : ℕ → String
  | 0 => "+"
  | 1 => "*"
  | 2 => "-"
  | _ => "/"

/-- Application of `_OPERATORS[idx]` to two numbers (Python ints and the
float result of true division are both modelled as rationals). -/
def applyOp (idx : ℕ) (a b : ℚ) : ℚ :=
  match idx with
  | 0 => a + b
  | 1 => a * b
  | 2 => a - b
  | _ => a / b

/-- Rendering of a number by `str()` as used in `to_str` of
`_generate_question`: integers print without a decimal point, and the
generator only ever prints numbers with at most one decimal digit, which
print as `<int part>.<digit>`. -/
def pyNumStr (n : ℚ) : String :=
  if n.den = 1 then toString n.num
  else
    (if n < 0 then "-" else "") ++ toString ((10 * |n|).num / 10) ++ "."
      ++ toString ((10 * |n|).num % 10)

/-- The local `to_str` of `_generate_question`: render the number,
parenthesizing negative numbers for readability. -/
def to_str (n : ℚ) : String :=
  let s := pyNumStr n
  if n < 0 then "(" ++ s ++ ")" else s

/-- Tail of `_generate_question` after the rejection tests passed: for
`-` and `/` (index > 1) flip the operands, then render the tuple. -/
def finishQuestion (answer operand1 idx : ℕ) (operand2 : ℚ) : QTuple :=
  let p : ℚ × ℚ :=
    if 1 < idx then (operand2, (operand1 : ℚ)) else ((operand1 : ℚ), operand2)
  (to_str p.1, opRepr idx, to_str p.2, toString answer)

/-- Method `KeyPadTest._generate_question`, with the unbounded rejection
recursion made total by fuel (`none` models non-termination, which the
repository documents as practically impossible).  `numAsked` and `pos`
are the `_num_questions_asked` and `_special_question_position` fields
read by the method. -/
def generateQuestion (numAsked pos : ℕ) : ℕ → Rng → Option (QTuple × Rng)
  | 0, _ => none
  | fuel + 1, r =>
    if numAsked = pos then some (SPECIAL_QUESTION, r)
    else
      let answer := (randint 0 9 r).1
      let r1 := (randint 0 9 r).2
      let operand1 := (randint 0 9 r1).1
      let r2 := (randint 0 9 r1).2
      let operatorIdx := (randint 0 3 r2).1
      let r3 := (randint 0 3 r2).2
      if operand1 = 0 ∧ operatorIdx % 2 = 1 then
        -- avoid 0 * x and x / 0
        generateQuestion numAsked pos fuel r3
      else if answer = 2 ∧ operand1 = 1 ∧ operatorIdx = 0 then
        -- avoid 1 + 1
        generateQuestion numAsked pos fuel r3
      else
        -- Use the inverse operator to compute the other operand.
        let operand2 : ℚ := applyOp ((operatorIdx + 2) % 4) answer operand1
        if ¬ (10 * operand2).den = 1 then
          -- Reject questions where the second operand has more than one
          -- digit after the decimal point.
          generateQuestion numAsked pos fuel r3
        else
          some (finishQuestion answer operand1 operatorIdx operand2, r3)

/-- The state owned by `KeyPadTest`, together with the keypad and door it
aliases, the global RNG and the pygame timer period (ms) set by
`pygame.time.set_timer`. -/
structure KeyPadTestState where
  active : Bool
  question : Option Question
  specialQuestionPosition : ℕ
  numQuestionsAsked : ℕ
  keypad : KeyPad
  door : Door
  rng : Rng
  timerMs : ℕ

/-- Method `KeyPadTest._init_state`: deactivate, clear the question,
draw the special-question position uniformly from [9, 14] (one RNG
draw), and zero the asked-question counter. -/
def initStateFields (st : KeyPadTestState) : KeyPadTestState :=
  let (p, r) := randint 9 14 st.rng
  { st with active := false, question := none, specialQuestionPosition := p,
            numQuestionsAsked := 0, rng := r }

/-- Constructor `KeyPadTest.__init__`: store the keypad and door, then
run `_init_state`. -/
def KeyPadTest.mk' (keypad : KeyPad) (door : Door) (rng : Rng) :
    KeyPadTestState :=
  initStateFields
    { active := false, question := none, specialQuestionPosition := 0,
      numQuestionsAsked := 0, keypad := keypad, door := door, rng := rng,
      timerMs := 0 }

/-- Method `KeyPadTest._next_question`: generate a question, display its
first three tokens on the keypad (through the `text` property setter) and
bump the asked-question counter.  `none` models generator
non-termination. -/
def nextQuestion (st : KeyPadTestState) (fuel : ℕ) :
    Option KeyPadTestState :=
  (generateQuestion st.numQuestionsAsked st.specialQuestionPosition fuel
      st.rng).map
    fun qr =>
      { st with
          question := some (Question.mk' qr.1),
          keypad := st.keypad.setText (qr.1.1 ++ qr.1.2.1 ++ qr.1.2.2.1),
          numQuestionsAsked := st.numQuestionsAsked + 1,
          rng := qr.2 }

/-- Property `KeyPadTest.completed`: a question exists, it is the special
question, and the keypad displays "OK". -/
def completed (st : KeyPadTestState) : Bool :=
  match st.question with
  | none => false
  | some q => q.value == SPECIAL_QUESTION && st.keypad.textValue == "OK"

/-- Method `KeyPadTest.start` (assert: not active): activate, recolor the
keypad text red and start the 500 ms tick timer. -/
def KeyPadTest.start (st : KeyPadTestState) : Option KeyPadTestState :=
  if st.active then none
  else some { st with active := true,
                      keypad := st.keypad.setTextColor Color.RED,
                      timerMs := 500 }

/-- Method `KeyPadTest.stop` (assert: active): re-run `_init_state`
(re-drawing the special position), reset the keypad display, propagate
the (now empty) keypad text to the door and disable the timer. -/
def KeyPadTest.stop (st : KeyPadTestState) : Option KeyPadTestState :=
  if ¬ st.active then none
  else
    let st1 := initStateFields st
    let kp := st1.keypad.set_initial_text
    some { st1 with keypad := kp,
                    door := { st1.door with text := kp.textValue },
                    timerMs := 0 }

/-- Method `KeyPadTest._flip_text_color`: alternate the keypad text color
between black and red. -/
def flipTextColor (st : KeyPadTestState) : KeyPadTestState :=
  if st.keypad.textColor = Color.BLACK then
    { st with keypad := st.keypad.setTextColor Color.RED }
  else
    { st with keypad := st.keypad.setTextColor Color.BLACK }

/-- Method `KeyPadTest.send`: start on the first event while inactive;
while active, process timer ticks (stop on "ERR", latch on completion,
otherwise generate/advance/copy the question state and blink) and digit
keystrokes (forwarded to `_Question.solve`).  The returned Bool is the
consumed flag; `none` models an AssertionError or generator
non-termination. -/
def KeyPadTest.send (fuel : ℕ) (st : KeyPadTestState) (e : Event) :
    Option (KeyPadTestState × Bool) :=
  if ¬ st.active then
    (KeyPadTest.start st).map fun s => (s, true)
  else if e.etype = EventType.TICK then
    if st.keypad.textValue = QuestionState.ERR.value then
      (KeyPadTest.stop st).map fun s => (s, true)
    else if completed st then some (st, true)
    else
      let stepped : Option KeyPadTestState :=
        match st.question with
        | none => nextQuestion st fuel
        | some q =>
          if st.keypad.textValue = QuestionState.OK.value then
            nextQuestion st fuel
          else if q.state ≠ QuestionState.ACTIVE then
            some { st with keypad := st.keypad.setText q.state.value }
          else
            some { st with question := some q.tick }
      stepped.map fun s => (flipTextColor s, true)
  else if e.etype = EventType.KEYDOWN ∧ pyIsDigit e.unicode then
    match st.question, e.unicode with
    | some q, some c => some ({ st with question := some (q.solve c) }, true)
    | _, _ => some (st, true)
  else
    some (st, false)

/-- The part of the `Game` state the verified claims touch: the current
view and the `KeyPadTest` state (which aliases the keypad and door
images the game owns).  The chest, light switch and remaining images are
independent of these claims. -/
structure Game where
  view : View
  test : KeyPadTestState

/-- The state-mutating fragment of `Game.draw` (state.py): navigating
away from the keypad after opening stops the test.  The per-view
`_draw_*` rendering calls are side-effect-free on this state and are
omitted.  `none` models an AssertionError escaping from
`KeyPadTest.stop`. -/
def Game.draw (g : Game) : Option Game :=
  if g.test.keypad.opened ∧ g.view ≠ View.FRONT_KEYPAD then
    (KeyPadTest.stop g.test).map fun t => { g with test := t }
  else some g

/-- Method `Game._handle_generic_click`: consume edge clicks by rotating
the view through the `ROTATIONS` table. -/
def Game.handleGenericClick (W H : ℚ) (g : Game) (x y : ℚ) :
    Game × Bool :=
  if ¬ at_edge W H x y then (g, false)
  else ({ g with view := rotate g.view (quadrant W H x y) }, true)

/-- Method `Game.handle_click` for a left click while the view is
FRONT_KEYPAD: there is no `_handle_front_keypad_click` method, so the
view-specific consumed flag is False and the generic handler runs; a
consumed click triggers `draw()`. -/
def Game.handleClickFrontKeypad (W H : ℚ) (g : Game) (x y : ℚ) :
    Option (Game × Bool) :=
  let p := Game.handleGenericClick W H g x y
  if p.2 then (Game.draw p.1).map fun g2 => (g2, true)
  else some (p.1, false)

/-- Method `Game.handle_keypad_input`: while viewing the keypad, feed
key events to `KeyPad.send`; on a redraw-requiring response the keypad
text is propagated to the door display. -/
def Game.handleKeypadInput (g : Game) (e : Event) : Game × Bool :=
  if g.view ≠ View.FRONT_KEYPAD then (g, false)
  else
    let pr := g.test.keypad.send e
    match pr.2 with
    | none => (g, false)
    | some r =>
      let g1 : Game := { g with test := { g.test with keypad := pr.1 } }
      if r then
        ({ g1 with test := { g1.test with
             door := { g1.test.door with text := pr.1.textValue } } }, true)
      else (g1, true)

/-- The operations that mutate a `KeyPad` object anywhere in the
repository: `set_initial_text`, the `text` property setter, the
`text_color` property setter, and `send`. -/
inductive KeyPadOp where
  | setInitialTextOp
  | setTextOp (v : String)
  | setColorOp (c : Color)
  | sendOp (e : Event)

/-- Apply a `KeyPadOp` to a keypad. -/
def KeyPad.applyOp (k : KeyPad) : KeyPadOp → KeyPad
  | .setInitialTextOp => k.set_initial_text
  | .setTextOp v => k.setText v
  | .setColorOp c => k.setTextColor c
  | .sendOp e => (k.send e).1

/-- The keypad invariant of claim C10: before opening, the displayed
text and the opening-input buffer coincide. -/
def KeyPadInv (k : KeyPad) : Prop :=
  k.opened = false → k.textValue = k.openingInput

/-- Cyclic successor of a quadrant in screen order
LEFT → TOP → RIGHT → BOTTOM → LEFT. -/
def quadSucc : Quadrant → Quadrant
  | .LEFT => .TOP
  | .TOP => .RIGHT
  | .RIGHT => .BOTTOM
  | .BOTTOM => .LEFT

/-- Four successive applications of the rotation lookup with one fixed
quadrant. -/
def rotate4 (v : View) (q : Quadrant) : View :=
  rotate (rotate (rotate (rotate v q) q) q) q

/-- Iterate `KeyPadTest._next_question` (with ample generator fuel). -/
def iterNextQ : ℕ → KeyPadTestState → Option KeyPadTestState
  | 0, st => some st
  | n + 1, st => (nextQuestion st 1000).bind (iterNextQ n)

/-- An all-zeros random stream (every `randint lo hi` yields `lo`). -/
def rngZero : Rng := { vals := fun _ => 0, idx := 0 }

/-- A timer tick event. -/
def tickEv : Event :=
  { etype := EventType.TICK, key := KeyCode.OTHER, unicode := none }

/-- A key-down event producing the given character. -/
def evDigit (c : Char) : Event :=
  { etype := EventType.KEYDOWN, key := KeyCode.OTHER, unicode := some c }

/-- A backspace key-down event (its unicode control character is
irrelevant: the backspace branch fires on the key code). -/
def evBack : Event :=
  { etype := EventType.KEYDOWN, key := KeyCode.BACKSPACE, unicode := none }

/-- The keypad after the player types the digits 9, 7, 1, 0 into the
freshly constructed keypad. -/
def kpTyped : KeyPad :=
  ((((KeyPad.initial.send (evDigit '9')).1.send (evDigit '7')).1.send
      (evDigit '1')).1.send (evDigit '0')).1

/-- A freshly constructed `KeyPadTest` over the all-zeros stream (its
special-question position is 9, the least value of the documented
range). -/
def stW : KeyPadTestState :=
  KeyPadTest.mk' KeyPad.initial Door.initial rngZero

/-- The state after the first `_next_question` on `stW`. -/
def stW1 : KeyPadTestState := (nextQuestion stW 1).getD stW

/-- An active test whose keypad displays "ERR" (reached after a timed-out
question's ERR marker was copied to the display on the previous tick). -/
def cst2 : KeyPadTestState :=
  { active := true,
    question := some { value := ("0", "+", "0", "0"),
                       state := QuestionState.ERR, numTicks := 2 },
    specialQuestionPosition := 9, numQuestionsAsked := 3,
    keypad := { textValue := "ERR", textColor := Color.BLACK,
                openingInput := "9710" },
    door := Door.initial, rng := rngZero, timerMs := 500 }

/-- An unsolved question that has already been ticked once. -/
def q3 : Question :=
  { value := ("0", "+", "0", "0"), state := QuestionState.ACTIVE,
    numTicks := 1 }

/-- The same question after it timed out (state ERR). -/
def q3b : Question :=
  { value := ("0", "+", "0", "0"), state := QuestionState.ERR,
    numTicks := 2 }

/-- An active test whose current question is unsolved and has already
been ticked once; the keypad still displays the question. -/
def cst3 : KeyPadTestState :=
  { active := true, question := some q3,
    specialQuestionPosition := 9, numQuestionsAsked := 1,
    keypad := { textValue := "0+0", textColor := Color.RED,
                openingInput := "9710" },
    door := Door.initial, rng := rngZero, timerMs := 500 }

/-- An active test whose current question has timed out (state ERR)
while the keypad still displays the question. -/
def cst3b : KeyPadTestState :=
  { cst3 with question := some q3b }

/-- The game at the keypad view with a freshly constructed test. -/
def game0 : Game :=
  { view := View.FRONT_KEYPAD,
    test := KeyPadTest.mk' KeyPad.initial Door.initial rngZero }

/-- The game after the player types 9, 7, 1, 0 on the keypad view: the
keypad is opened but no event has reached `KeyPadTest.send` yet (the
typing events are all consumed by `handle_keypad_input`, which precedes
`handle_keypad_test` in the alphabetical handler order). -/
def game9710 : Game :=
  ((((game0.handleKeypadInput (evDigit '9')).1.handleKeypadInput
        (evDigit '7')).1.handleKeypadInput
      (evDigit '1')).1.handleKeypadInput (evDigit '0')).1

/-! Helper lemmas shared by several claims. -/

theorem length_pyDropLast (s : String) :
    (pyDropLast s).length = s.length - 1 := by
  cases s with
  | mk data => simp [pyDropLast, String.length]

theorem length_push (s : String) (c : Char) :
    (s.push c).length = s.length + 1 := by
  cases s with
  | mk data => simp [String.push, String.length]

theorem pyDropLast_ne (s : String) (h : s ≠ "") : pyDropLast s ≠ s := by
  intro he
  have hlen := congrArg String.length he
  rw [length_pyDropLast] at hlen
  have h0 : s.length = 0 := by omega
  exact h (String.ext (List.length_eq_zero.mp h0))

theorem push_ne (s : String) (c : Char) : s.push c ≠ s := by
  intro he
  have hlen := congrArg String.length he
  rw [length_push] at hlen
  omega

/-! Claim C8: the quadrant classification. -/

/-- Claim C8: for every point of the screen rectangle `quadrant` yields
exactly one of the four quadrants, consistently with the two screen
diagonals (for x ≠ 0 the result is LEFT/TOP/RIGHT/BOTTOM exactly
according to the point's position relative to the down-diagonal slope
`H/W` comparison of `y/x` and the up-diagonal comparison of `(H-y)/x`);
the x = 0 edge is always LEFT, and the midpoints of the left, top,
right and bottom edges map to LEFT, TOP, RIGHT and BOTTOM. -/
theorem C8_quadrant_partition (W H : ℚ) (hW : 0 < W) (hH : 0 < H) :
    (∀ y : ℚ, quadrant W H 0 y = Quadrant.LEFT)
    ∧ quadrant W H 0 (H / 2) = Quadrant.LEFT
    ∧ quadrant W H (W / 2) 0 = Quadrant.TOP
    ∧ quadrant W H W (H / 2) = Quadrant.RIGHT
    ∧ quadrant W H (W / 2) H = Quadrant.BOTTOM
    ∧ ∀ x y : ℚ, x ≠ 0 →
        (quadrant W H x y = Quadrant.LEFT
            ↔ ¬ y / x < H / W ∧ (H - y) / x > H / W)
        ∧ (quadrant W H x y = Quadrant.TOP
            ↔ y / x < H / W ∧ (H - y) / x > H / W)
        ∧ (quadrant W H x y = Quadrant.RIGHT
            ↔ y / x < H / W ∧ ¬ (H - y) / x > H / W)
        ∧ (quadrant W H x y = Quadrant.BOTTOM
            ↔ ¬ y / x < H / W ∧ ¬ (H - y) / x > H / W) := by
  have hWhalf : (0:ℚ) < W / 2 := by positivity
  have hx2 : W / 2 ≠ 0 := ne_of_gt hWhalf
  have hwall : (0:ℚ) < H / W := by positivity
  have hpart : ∀ x y : ℚ, x ≠ 0 →
      (quadrant W H x y = Quadrant.LEFT
          ↔ ¬ y / x < H / W ∧ (H - y) / x > H / W)
      ∧ (quadrant W H x y = Quadrant.TOP
          ↔ y / x < H / W ∧ (H - y) / x > H / W)
      ∧ (quadrant W H x y = Quadrant.RIGHT
          ↔ y / x < H / W ∧ ¬ (H - y) / x > H / W)
      ∧ (quadrant W H x y = Quadrant.BOTTOM
          ↔ ¬ y / x < H / W ∧ ¬ (H - y) / x > H / W) := by
    intro x y hx
    by_cases h1 : y / x < H / W
    · by_cases h2 : (H - y) / x > H / W
      · simp [quadrant, hx, h1, h2]
      · simp [quadrant, hx, h1, h2]
    · by_cases h2 : (H - y) / x > H / W
      · simp [quadrant, hx, h1, h2]
      · simp [quadrant, hx, h1, h2]
  refine ⟨fun y => by simp [quadrant], by simp [quadrant], ?_, ?_, ?_, hpart⟩
  · -- top-edge midpoint (W/2, 0)
    have hup : H / W < H / (W / 2) :=
      (div_lt_div_iff_of_pos_left hH hW hWhalf).mpr (by linarith)
    refine (hpart (W / 2) 0 hx2).2.1.mpr ⟨?_, ?_⟩
    · rw [zero_div]; exact hwall
    · rw [sub_zero]; exact hup
  · -- right-edge midpoint (W, H/2)
    have hxW : W ≠ 0 := ne_of_gt hW
    have hdown : (H / 2) / W < H / W :=
      (div_lt_div_iff_of_pos_right hW).mpr (by linarith)
    refine (hpart W (H / 2) hxW).2.2.1.mpr ⟨hdown, ?_⟩
    · rw [sub_half]; exact not_lt_of_gt hdown
  · -- bottom-edge midpoint (W/2, H)
    have hup : H / W < H / (W / 2) :=
      (div_lt_div_iff_of_pos_left hH hW hWhalf).mpr (by linarith)
    refine (hpart (W / 2) H hx2).2.2.2.mpr ⟨?_, ?_⟩
    · exact not_lt_of_gt hup
    · rw [sub_self, zero_div]; exact fun hc => absurd hc (not_lt_of_gt hwall)

/-- Witness for C8 at the concrete screen 4 × 3. -/
theorem C8_quadrant_partition_witness :
    quadrant 4 3 0 (7:ℚ) = Quadrant.LEFT
    ∧ quadrant 4 3 0 ((3:ℚ) / 2) = Quadrant.LEFT
    ∧ quadrant 4 3 ((4:ℚ) / 2) 0 = Quadrant.TOP
    ∧ quadrant 4 3 4 ((3:ℚ) / 2) = Quadrant.RIGHT
    ∧ quadrant 4 3 ((4:ℚ) / 2) 3 = Quadrant.BOTTOM := by
  have h := C8_quadrant_partition 4 3 (by norm_num) (by norm_num)
  exact ⟨h.1 7, h.2.1, h.2.2.1, h.2.2.2.1, h.2.2.2.2.1⟩

/-! Claim C9: rotation-table consistency. -/

/-- Counterexample to claim C9 as stated: starting from FRONT_WALL and
applying the rotation lookup four times through all four quadrants in
cyclic screen order never returns to FRONT_WALL, for any of the four
starting phases in either cyclic direction. -/
theorem C9_counterexample :
    rotate (rotate (rotate (rotate View.FRONT_WALL Quadrant.LEFT)
        Quadrant.TOP) Quadrant.RIGHT) Quadrant.BOTTOM ≠ View.FRONT_WALL
    ∧ rotate (rotate (rotate (rotate View.FRONT_WALL Quadrant.TOP)
        Quadrant.RIGHT) Quadrant.BOTTOM) Quadrant.LEFT ≠ View.FRONT_WALL
    ∧ rotate (rotate (rotate (rotate View.FRONT_WALL Quadrant.RIGHT)
        Quadrant.BOTTOM) Quadrant.LEFT) Quadrant.TOP ≠ View.FRONT_WALL
    ∧ rotate (rotate (rotate (rotate View.FRONT_WALL Quadrant.BOTTOM)
        Quadrant.LEFT) Quadrant.TOP) Quadrant.RIGHT ≠ View.FRONT_WALL
    ∧ rotate (rotate (rotate (rotate View.FRONT_WALL Quadrant.BOTTOM)
        Quadrant.RIGHT) Quadrant.TOP) Quadrant.LEFT ≠ View.FRONT_WALL
    ∧ rotate (rotate (rotate (rotate View.FRONT_WALL Quadrant.RIGHT)
        Quadrant.TOP) Quadrant.LEFT) Quadrant.BOTTOM ≠ View.FRONT_WALL
    ∧ rotate (rotate (rotate (rotate View.FRONT_WALL Quadrant.TOP)
        Quadrant.LEFT) Quadrant.BOTTOM) Quadrant.RIGHT ≠ View.FRONT_WALL
    ∧ rotate (rotate (rotate (rotate View.FRONT_WALL Quadrant.LEFT)
        Quadrant.BOTTOM) Quadrant.RIGHT) Quadrant.TOP ≠ View.FRONT_WALL := by
  decide

/-- Claim C9 as amended: each of the four side faces returns to itself
after four rotation lookups through all four quadrants in cyclic screen
order (starting at the quadrant cyclically following the face's own
index), and FRONT_WALL returns to itself after four applications of any
one fixed quadrant (each side face also cycles back under its own fixed
quadrant, the one whose value indexes that face). -/
theorem C9_rotation_cycles :
    (∀ q : Quadrant,
        rotate (rotate (rotate (rotate (viewFromQuadrant q) (quadSucc q))
            (quadSucc (quadSucc q))) (quadSucc (quadSucc (quadSucc q)))) q
          = viewFromQuadrant q)
    ∧ (∀ q : Quadrant, rotate4 View.FRONT_WALL q = View.FRONT_WALL)
    ∧ (∀ q : Quadrant, rotate4 (viewFromQuadrant q) q = viewFromQuadrant q)
    := by
  decide

/-! Claim C1: placement of the special question.

The rational arithmetic of Batteries is irreducible by default; concrete
runs of the question generator are evaluated by making it reducible for
the remainder of the development. -/

section
attribute [local semireducible] Rat.add Rat.sub Rat.mul Rat.inv

/-- The random path of the question generator can never produce the
special question `('1', '+', '1', '3')`: for the `+` operator the second
operand is derived as `answer - operand1`, which for operand1 = 1 and
answer = 3 is 2, and the three other operators print a different
symbol. -/
theorem finishQuestion_ne_special :
    ∀ a : Fin 10, ∀ o : Fin 10, ∀ i : Fin 4,
      finishQuestion a o i (applyOp (((i : ℕ) + 2) % 4) (a : ℕ) (o : ℕ))
        ≠ SPECIAL_QUESTION := by
  decide

/-- A successful `_generate_question` run returns the special question
exactly when the pre-increment asked-question counter equals the drawn
special position. -/
theorem generateQuestion_special (numAsked pos : ℕ) :
    ∀ (fuel : ℕ) (r : Rng) (q : QTuple) (r' : Rng),
      generateQuestion numAsked pos fuel r = some (q, r') →
      (q = SPECIAL_QUESTION ↔ numAsked = pos) := by
  intro fuel
  induction fuel with
  | zero =>
    intro r q r' h
    exact absurd h (by simp [generateQuestion])
  | succ n ih =>
    intro r q r' h
    by_cases hp : numAsked = pos
    · rw [generateQuestion, if_pos hp] at h
      injection h with h2
      have hq : q = SPECIAL_QUESTION := (congrArg Prod.fst h2).symm
      exact ⟨fun _ => hp, fun _ => hq⟩
    · rw [generateQuestion, if_neg hp] at h
      simp only [] at h
      split_ifs at h
      any_goals exact ih _ q r' h
      · injection h with h2
        have hq : q = finishQuestion (randint 0 9 r).1
            (randint 0 9 (randint 0 9 r).2).1
            (randint 0 3 (randint 0 9 (randint 0 9 r).2).2).1
            (applyOp (((randint 0 3 (randint 0 9 (randint 0 9 r).2).2).1 + 2)
                % 4)
              (randint 0 9 r).1 (randint 0 9 (randint 0 9 r).2).1) :=
          (congrArg Prod.fst h2).symm
        have ha : (randint 0 9 r).1 < 10 := by
          simp only [randint]
          omega
        have ho : (randint 0 9 (randint 0 9 r).2).1 < 10 := by
          simp only [randint]
          omega
        have hi : (randint 0 3 (randint 0 9 (randint 0 9 r).2).2).1 < 4 := by
          simp only [randint]
          omega
        refine ⟨fun hs => absurd (hq ▸ hs) ?_, fun hc => absurd hc hp⟩
        exact finishQuestion_ne_special ⟨_, ha⟩ ⟨_, ho⟩ ⟨_, hi⟩

/-- Counterexample to claim C1 as stated: over the all-zeros random
stream the drawn special position is 9, yet the 9th question generated
is the ordinary question `('0', '+', '0', '0')`, not the special one —
the special question is only issued as the 10th question. -/
theorem C1_counterexample :
    stW.specialQuestionPosition = 9
    ∧ (iterNextQ 9 stW).map (fun s => s.question.map Question.value)
        = some (some ("0", "+", "0", "0"))
    ∧ (("0", "+", "0", "0") : QTuple) ≠ SPECIAL_QUESTION
    ∧ (iterNextQ 10 stW).map (fun s => s.question.map Question.value)
        = some (some SPECIAL_QUESTION) := by
  refine ⟨rfl, by decide, by decide, by decide⟩

/-- Claim C1 as amended: each (re)initialization of the test performs
exactly one random draw, yielding a special position N determined by the
consumed stream value with 9 ≤ N ≤ 14 (every value of the inclusive
range [9, 14] is realised, uniformly for a uniform draw), and the
special question is issued exactly as the (N+1)-th question generated —
question number k (1-indexed) is generated while `_num_questions_asked`
is k − 1, and the special branch fires when that counter equals N. -/
theorem C1_special_position :
    (∀ st : KeyPadTestState,
        (initStateFields st).specialQuestionPosition
            = 9 + st.rng.vals st.rng.idx % 6
        ∧ 9 ≤ (initStateFields st).specialQuestionPosition
        ∧ (initStateFields st).specialQuestionPosition ≤ 14
        ∧ (initStateFields st).rng.idx = st.rng.idx + 1)
    ∧ ∀ (st : KeyPadTestState) (fuel : ℕ) (st' : KeyPadTestState),
        nextQuestion st fuel = some st' →
        st'.numQuestionsAsked = st.numQuestionsAsked + 1
        ∧ (st'.question.map Question.value = some SPECIAL_QUESTION
            ↔ st.numQuestionsAsked = st.specialQuestionPosition) := by
  constructor
  · intro st
    have hm : st.rng.vals st.rng.idx % 6 < 6 :=
      Nat.mod_lt _ (by norm_num)
    have hpos : (initStateFields st).specialQuestionPosition
        = 9 + st.rng.vals st.rng.idx % 6 := rfl
    exact ⟨hpos, by omega, by omega, rfl⟩
  · intro st fuel st' h
    unfold nextQuestion at h
    cases hg : generateQuestion st.numQuestionsAsked
        st.specialQuestionPosition fuel st.rng with
    | none => rw [hg] at h; exact absurd h (by simp)
    | some pr =>
      obtain ⟨q, r'⟩ := pr
      rw [hg] at h
      have h2 := Option.some.inj h
      subst h2
      refine ⟨rfl, ?_⟩
      have hiff := generateQuestion_special _ _ fuel st.rng q r' hg
      show (some q : Option QTuple) = some SPECIAL_QUESTION ↔ _
      rw [Option.some.injEq]
      exact hiff

/-- Witness for the amended C1 at a concrete freshly initialized test. -/
theorem C1_special_position_witness :
    stW1.numQuestionsAsked = stW.numQuestionsAsked + 1
    ∧ (stW1.question.map Question.value = some SPECIAL_QUESTION
        ↔ stW.numQuestionsAsked = stW.specialQuestionPosition) :=
  C1_special_position.2 stW 1 stW1 rfl

/-! Claim C2: a tick while the keypad displays "ERR" stops the test. -/

/-- Claim C2: while the test is active, a tick event arriving when the
keypad displays the literal string "ERR" stops the test — the state is
reinitialized (INACTIVE, no question), the keypad is reset to its
initial empty, unopened display, the (reset) keypad text is propagated
to the door display, the timer is disabled and send returns True. -/
theorem C2_tick_err_stops (st : KeyPadTestState) (e : Event) (fuel : ℕ)
    (ha : st.active = true) (he : e.etype = EventType.TICK)
    (ht : st.keypad.textValue = "ERR") :
    KeyPadTest.send fuel st e
      = some ({ initStateFields st with
                  keypad := st.keypad.set_initial_text,
                  door := { st.door with text := "" },
                  timerMs := 0 }, true)
    ∧ (initStateFields st).active = false
    ∧ (initStateFields st).question = none
    ∧ (st.keypad.set_initial_text).textValue = ""
    ∧ (st.keypad.set_initial_text).opened = false
    ∧ "" = (st.keypad.set_initial_text).textValue := by
  refine ⟨?_, rfl, rfl, rfl, rfl, rfl⟩
  unfold KeyPadTest.send
  rw [if_neg (by simp [ha])]
  rw [if_pos he, if_pos (by rw [ht]; rfl)]
  unfold KeyPadTest.stop
  rw [if_neg (by simp [ha])]
  rfl

/-- Witness for C2 at a concrete active test displaying "ERR". -/
theorem C2_tick_err_stops_witness :
    KeyPadTest.send 1 cst2 tickEv
      = some ({ initStateFields cst2 with
                  keypad := cst2.keypad.set_initial_text,
                  door := { cst2.door with text := "" },
                  timerMs := 0 }, true)
    ∧ (initStateFields cst2).active = false
    ∧ (initStateFields cst2).question = none
    ∧ (cst2.keypad.set_initial_text).textValue = ""
    ∧ (cst2.keypad.set_initial_text).opened = false
    ∧ "" = (cst2.keypad.set_initial_text).textValue :=
  C2_tick_err_stops cst2 tickEv 1 rfl rfl rfl

/-! Claim C3: the timeout cascade of an unsolved question. -/

/-- Counterexample to claim C3 as stated: a tick on an active test whose
unsolved question has already been ticked once forces the question's
state to ERR, but the keypad keeps displaying the question text ("0+0"
here) on that same tick — the display only becomes "ERR" on the
following tick, not on the tick of the state change. -/
theorem C3_counterexample :
    (KeyPadTest.send 1 cst3 tickEv).map
        (fun p => (p.1.question.map Question.state, p.1.keypad.textValue,
          p.2))
      = some (some QuestionState.ERR, "0+0", true)
    ∧ ("0+0" : String) ≠ "ERR" :=
  ⟨rfl, by decide⟩

/-- Claim C3 as amended: a tick on an unsolved (ACTIVE) question
increments its tick counter, forcing its state to ERR exactly when the
counter exceeds one, while the displayed text is unchanged on that tick;
a later tick finding the question in state ERR copies "ERR" onto the
display; and a tick finding the display equal to "ERR" deactivates the
test — a two-tick grace period between the state change and the stop. -/
theorem C3_tick_timeout_cascade :
    (∀ (st : KeyPadTestState) (q : Question) (e : Event) (fuel : ℕ),
        st.active = true → e.etype = EventType.TICK →
        st.keypad.textValue ≠ "ERR" → completed st = false →
        st.keypad.textValue ≠ "OK" → st.question = some q →
        q.state = QuestionState.ACTIVE →
          KeyPadTest.send fuel st e
            = some (flipTextColor { st with question := some q.tick }, true)
          ∧ (q.tick).numTicks = q.numTicks + 1
          ∧ ((q.tick).state = QuestionState.ERR ↔ 1 < q.numTicks + 1)
          ∧ (flipTextColor { st with question := some q.tick }).keypad.textValue
              = st.keypad.textValue)
    ∧ (∀ (st : KeyPadTestState) (q : Question) (e : Event) (fuel : ℕ),
        st.active = true → e.etype = EventType.TICK →
        st.keypad.textValue ≠ "ERR" → completed st = false →
        st.keypad.textValue ≠ "OK" → st.question = some q →
        q.state = QuestionState.ERR →
          KeyPadTest.send fuel st e
            = some (flipTextColor
                { st with keypad := st.keypad.setText "ERR" }, true))
    ∧ (∀ (st : KeyPadTestState) (e : Event) (fuel : ℕ),
        st.active = true → e.etype = EventType.TICK →
        st.keypad.textValue = "ERR" →
          (KeyPadTest.send fuel st e).map (fun p => (p.1.active, p.2))
            = some (false, true)) := by
  refine ⟨?_, ?_, ?_⟩
  · intro st q e fuel ha he ht hc hok hq hqs
    refine ⟨?_, rfl, ?_, ?_⟩
    · unfold KeyPadTest.send
      rw [if_neg (by simp [ha])]
      rw [if_pos he,
        if_neg (show ¬ st.keypad.textValue = QuestionState.ERR.value from ht),
        if_neg (by simp [hc]), hq]
      dsimp only
      rw [if_neg (show ¬ st.keypad.textValue = QuestionState.OK.value
            from hok),
        if_neg (by simp [hqs])]
      rfl
    · unfold Question.tick
      by_cases hn : 1 < q.numTicks + 1
      · simp [hn]
      · simp [hn, hqs]
    · unfold flipTextColor KeyPad.setTextColor
      split <;> rfl
  · intro st q e fuel ha he ht hc hok hq hqs
    unfold KeyPadTest.send
    rw [if_neg (by simp [ha])]
    rw [if_pos he,
      if_neg (show ¬ st.keypad.textValue = QuestionState.ERR.value from ht),
      if_neg (by simp [hc]), hq]
    dsimp only
    rw [if_neg (show ¬ st.keypad.textValue = QuestionState.OK.value from hok),
      if_pos (by simp [hqs]), hqs]
    rfl
  · intro st e fuel ha he ht
    unfold KeyPadTest.send
    rw [if_neg (by simp [ha])]
    rw [if_pos he, if_pos (by rw [ht]; rfl)]
    unfold KeyPadTest.stop
    rw [if_neg (by simp [ha])]
    rfl

/-- Witness for the amended C3 at the concrete three-stage run: the
state-ERR tick on `cst3`, the display-ERR tick on `cst3b`, and the
stopping tick on `cst2`. -/
theorem C3_tick_timeout_cascade_witness :
    (KeyPadTest.send 1 cst3 tickEv
        = some (flipTextColor { cst3 with question := some q3.tick }, true)
      ∧ q3.tick.numTicks = q3.numTicks + 1
      ∧ (q3.tick.state = QuestionState.ERR ↔ 1 < q3.numTicks + 1)
      ∧ (flipTextColor
            { cst3 with question := some q3.tick }).keypad.textValue
          = cst3.keypad.textValue)
    ∧ KeyPadTest.send 1 cst3b tickEv
        = some (flipTextColor
            { cst3b with keypad := cst3b.keypad.setText "ERR" }, true)
    ∧ (KeyPadTest.send 1 cst2 tickEv).map (fun p => (p.1.active, p.2))
        = some (false, true) :=
  ⟨C3_tick_timeout_cascade.1 cst3 q3 tickEv 1 rfl rfl (by decide) rfl
      (by decide) rfl rfl,
   C3_tick_timeout_cascade.2.1 cst3b q3b tickEv 1 rfl rfl (by decide) rfl
      (by decide) rfl rfl,
   C3_tick_timeout_cascade.2.2 cst2 tickEv 1 rfl rfl rfl⟩

/-! Claim C4: navigating away from the opened keypad. -/

/-- Claim C4 evaluated at its failing input: after the keypad is opened
by typing 9710 (every typing event being consumed by
`handle_keypad_input`, so the test is still INACTIVE and has never
received a send), a left click on a screen edge rotates the view to
FRONT_WALL and the triggered draw calls `KeyPadTest.stop`, whose
`assert self._active` fails — the model returns `none` (an
AssertionError crash) instead of stopping and resetting as the claim
describes. -/
theorem C4_stop_assert_failure :
    game9710.test.keypad.opened = true
    ∧ game9710.test.active = false
    ∧ game9710.view = View.FRONT_KEYPAD
    ∧ Game.handleClickFrontKeypad 800 600 game9710 0 300 = none
    ∧ KeyPadTest.stop game9710.test = none :=
  ⟨rfl, rfl, rfl, rfl, rfl⟩

/-! Claim C5: entering 9710 opens the keypad, and opening is sticky. -/

/-- Claim C5: typing exactly the digits 9, 7, 1, 0 into the fresh keypad
makes `opened` true, and any later assignment through the `text`
property setter changes only the displayed string — `opened` (and the
underlying opening input) survive arbitrary new text values. -/
theorem C5_keypad_opened_sticky :
    kpTyped.textValue = "9710"
    ∧ kpTyped.opened = true
    ∧ (∀ (k : KeyPad) (v : String), k.opened = true →
        (k.setText v).opened = true
        ∧ (k.setText v).textValue = v
        ∧ (k.setText v).openingInput = k.openingInput
        ∧ (k.setText v).textColor = k.textColor) := by
  refine ⟨rfl, rfl, ?_⟩
  intro k v h
  unfold KeyPad.setText
  rw [if_pos h]
  exact ⟨h, rfl, rfl, rfl⟩

/-- Witness for C5's sticky-opening clause at the typed-in keypad. -/
theorem C5_keypad_opened_sticky_witness :
    (kpTyped.setText "OK").opened = true
    ∧ (kpTyped.setText "OK").textValue = "OK"
    ∧ (kpTyped.setText "OK").openingInput = kpTyped.openingInput
    ∧ (kpTyped.setText "OK").textColor = kpTyped.textColor :=
  C5_keypad_opened_sticky.2.2 kpTyped "OK" (by decide)

/-! Claim C6: bounded-buffer invariants of both text-entry puzzles.

The five lemmas below reduce `textSend` in each of its branches; both
puzzles' `send` methods instantiate them. -/

theorem setText_textValue (k : KeyPad) (v : String) :
    (k.setText v).textValue = v := by
  unfold KeyPad.setText
  split <;> rfl

theorem textSend_not_accepted {σ : Type} (get : σ → String)
    (set : σ → String → σ) (accept : σ → Event → Bool)
    (toChar : σ → Event → Option Char) (maxLen : ℕ) (st : σ) (e : Event)
    (h : accept st e = false) :
    textSend get set accept toChar maxLen st e = (st, none) := by
  unfold textSend
  rw [if_pos (by simp [h])]

theorem textSend_backspace {σ : Type} (get : σ → String)
    (set : σ → String → σ) (accept : σ → Event → Bool)
    (toChar : σ → Event → Option Char) (maxLen : ℕ) (st : σ) (e : Event)
    (h : accept st e = true) (hk : e.key = KeyCode.BACKSPACE) :
    textSend get set accept toChar maxLen st e
      = (set st (pyDropLast (get st)), some (decide ¬ get st = "")) := by
  unfold textSend
  rw [if_neg (by simp [h]), if_pos hk]

theorem textSend_no_char {σ : Type} (get : σ → String)
    (set : σ → String → σ) (accept : σ → Event → Bool)
    (toChar : σ → Event → Option Char) (maxLen : ℕ) (st : σ) (e : Event)
    (h : accept st e = true) (hk : e.key ≠ KeyCode.BACKSPACE)
    (hc : toChar st e = none) :
    textSend get set accept toChar maxLen st e = (st, none) := by
  unfold textSend
  rw [if_neg (by simp [h]), if_neg hk, hc]

theorem textSend_full {σ : Type} (get : σ → String)
    (set : σ → String → σ) (accept : σ → Event → Bool)
    (toChar : σ → Event → Option Char) (maxLen : ℕ) (st : σ) (e : Event)
    (c : Char) (h : accept st e = true) (hk : e.key ≠ KeyCode.BACKSPACE)
    (hc : toChar st e = some c) (hl : maxLen ≤ (get st).length) :
    textSend get set accept toChar maxLen st e = (st, some false) := by
  unfold textSend
  rw [if_neg (by simp [h]), if_neg hk, hc]
  dsimp only
  rw [if_pos hl]

theorem textSend_append {σ : Type} (get : σ → String)
    (set : σ → String → σ) (accept : σ → Event → Bool)
    (toChar : σ → Event → Option Char) (maxLen : ℕ) (st : σ) (e : Event)
    (c : Char) (h : accept st e = true) (hk : e.key ≠ KeyCode.BACKSPACE)
    (hc : toChar st e = some c) (hl : ¬ maxLen ≤ (get st).length) :
    textSend get set accept toChar maxLen st e
      = (set st ((get st).push c), some true) := by
  unfold textSend
  rw [if_neg (by simp [h]), if_neg hk, hc]
  dsimp only
  rw [if_neg hl]

/-- Case split on an arbitrary `textSend` call: it lands in exactly one
of the five branch lemmas above. -/
theorem textSend_cases {σ : Type} (get : σ → String)
    (set : σ → String → σ) (accept : σ → Event → Bool)
    (toChar : σ → Event → Option Char) (maxLen : ℕ) (st : σ) (e : Event) :
    (accept st e = false
      ∧ textSend get set accept toChar maxLen st e = (st, none))
    ∨ (accept st e = true ∧ e.key = KeyCode.BACKSPACE
      ∧ textSend get set accept toChar maxLen st e
          = (set st (pyDropLast (get st)), some (decide ¬ get st = "")))
    ∨ (accept st e = true ∧ e.key ≠ KeyCode.BACKSPACE
      ∧ toChar st e = none
      ∧ textSend get set accept toChar maxLen st e = (st, none))
    ∨ (∃ c, accept st e = true ∧ e.key ≠ KeyCode.BACKSPACE
      ∧ toChar st e = some c ∧ maxLen ≤ (get st).length
      ∧ textSend get set accept toChar maxLen st e = (st, some false))
    ∨ (∃ c, accept st e = true ∧ e.key ≠ KeyCode.BACKSPACE
      ∧ toChar st e = some c ∧ ¬ maxLen ≤ (get st).length
      ∧ textSend get set accept toChar maxLen st e
          = (set st ((get st).push c), some true)) := by
  by_cases h : accept st e = true
  · by_cases hk : e.key = KeyCode.BACKSPACE
    · exact Or.inr (Or.inl ⟨h, hk, textSend_backspace _ _ _ _ _ _ _ h hk⟩)
    · cases hc : toChar st e with
      | none =>
        exact Or.inr (Or.inr (Or.inl
          ⟨h, hk, rfl, textSend_no_char _ _ _ _ _ _ _ h hk hc⟩))
      | some c =>
        by_cases hl : maxLen ≤ (get st).length
        · exact Or.inr (Or.inr (Or.inr (Or.inl
            ⟨c, h, hk, rfl, hl, textSend_full _ _ _ _ _ _ _ c h hk hc hl⟩)))
        · exact Or.inr (Or.inr (Or.inr (Or.inr
            ⟨c, h, hk, rfl, hl,
              textSend_append _ _ _ _ _ _ _ c h hk hc hl⟩)))
  · exact Or.inl ⟨by simpa using h,
      textSend_not_accepted _ _ _ _ _ _ _ (by simpa using h)⟩

/-- Claim C6: for the chest (max length 3) and the keypad (max length 4)
every `send` preserves the length bound on the buffer; a
character-producing key event at the maximum length returns False and
leaves the text unchanged; a backspace on an empty buffer returns False
(the displayed text staying empty), and a backspace that actually
removes a character returns True. -/
theorem C6_buffer_bounds :
    (∀ (c : Chest) (e : Event), c.text.length ≤ Chest.maxTextLength →
        (Chest.send c e).1.text.length ≤ Chest.maxTextLength)
    ∧ (∀ (k : KeyPad) (e : Event),
        k.textValue.length ≤ KeyPad.maxTextLength →
        (KeyPad.send k e).1.textValue.length ≤ KeyPad.maxTextLength)
    ∧ (∀ (c : Chest) (e : Event) (ch : Char),
        c.accept_event e = true → e.key ≠ KeyCode.BACKSPACE →
        c.to_char e = some ch → c.text.length = Chest.maxTextLength →
        Chest.send c e = (c, some false))
    ∧ (∀ (k : KeyPad) (e : Event) (ch : Char),
        k.accept_event e = true → e.key ≠ KeyCode.BACKSPACE →
        k.to_char e = some ch → k.textValue.length = KeyPad.maxTextLength →
        KeyPad.send k e = (k, some false))
    ∧ (∀ (c : Chest) (e : Event), c.accept_event e = true →
        e.key = KeyCode.BACKSPACE → c.text = "" →
        Chest.send c e = (c, some false))
    ∧ (∀ (k : KeyPad) (e : Event), k.accept_event e = true →
        e.key = KeyCode.BACKSPACE → k.textValue = "" →
        (KeyPad.send k e).2 = some false
        ∧ (KeyPad.send k e).1.textValue = "")
    ∧ (∀ (c : Chest) (e : Event), c.accept_event e = true →
        e.key = KeyCode.BACKSPACE → c.text ≠ "" →
        (Chest.send c e).2 = some true
        ∧ (Chest.send c e).1.text = pyDropLast c.text)
    ∧ (∀ (k : KeyPad) (e : Event), k.accept_event e = true →
        e.key = KeyCode.BACKSPACE → k.textValue ≠ "" →
        (KeyPad.send k e).2 = some true
        ∧ (KeyPad.send k e).1.textValue = pyDropLast k.textValue) := by
  refine ⟨?_, ?_, ?_, ?_, ?_, ?_, ?_, ?_⟩
  · intro c e hlen
    rcases textSend_cases Chest.text (fun _ v => { text := v })
        Chest.accept_event Chest.to_char Chest.maxTextLength c e with
      ⟨_, hs⟩ | ⟨_, _, hs⟩ | ⟨_, _, _, hs⟩ | ⟨ch, _, _, _, _, hs⟩
        | ⟨ch, _, _, _, hl, hs⟩ <;>
      rw [Chest.send] at * <;> rw [hs]
    · exact hlen
    · show (pyDropLast c.text).length ≤ _
      rw [length_pyDropLast]
      omega
    · exact hlen
    · exact hlen
    · show (c.text.push ch).length ≤ _
      rw [length_push]
      omega
  · intro k e hlen
    rcases textSend_cases KeyPad.textValue KeyPad.setText
        KeyPad.accept_event KeyPad.to_char KeyPad.maxTextLength k e with
      ⟨_, hs⟩ | ⟨_, _, hs⟩ | ⟨_, _, _, hs⟩ | ⟨ch, _, _, _, _, hs⟩
        | ⟨ch, _, _, _, hl, hs⟩ <;>
      rw [KeyPad.send] at * <;> rw [hs]
    · exact hlen
    · show (KeyPad.setText k (pyDropLast k.textValue)).textValue.length ≤ _
      rw [setText_textValue, length_pyDropLast]
      omega
    · exact hlen
    · exact hlen
    · show (KeyPad.setText k (k.textValue.push ch)).textValue.length ≤ _
      rw [setText_textValue, length_push]
      omega
  · intro c e ch hacc hkey hch hlen
    rw [Chest.send]
    exact textSend_full _ _ _ _ _ _ _ ch hacc hkey hch (le_of_eq hlen.symm)
  · intro k e ch hacc hkey hch hlen
    rw [KeyPad.send]
    exact textSend_full _ _ _ _ _ _ _ ch hacc hkey hch (le_of_eq hlen.symm)
  · intro c e hacc hkey hempty
    rw [Chest.send, textSend_backspace _ _ _ _ _ _ _ hacc hkey, hempty]
    cases c with
    | mk t =>
      have ht : t = "" := hempty
      subst ht
      rfl
  · intro k e hacc hkey hempty
    rw [KeyPad.send, textSend_backspace _ _ _ _ _ _ _ hacc hkey, hempty]
    exact ⟨rfl, by rw [setText_textValue]; rfl⟩
  · intro c e hacc hkey hne
    rw [Chest.send, textSend_backspace _ _ _ _ _ _ _ hacc hkey]
    exact ⟨by simp [hne], rfl⟩
  · intro k e hacc hkey hne
    rw [KeyPad.send, textSend_backspace _ _ _ _ _ _ _ hacc hkey]
    exact ⟨by simp [hne], by rw [setText_textValue]⟩

/-- Witness for C6 at concrete chest and keypad states. -/
theorem C6_buffer_bounds_witness :
    (Chest.send ⟨"AY"⟩ (evDigit 'x')).1.text.length ≤ Chest.maxTextLength
    ∧ (KeyPad.send KeyPad.initial (evDigit '5')).1.textValue.length
        ≤ KeyPad.maxTextLength
    ∧ Chest.send ⟨"XYZ"⟩ (evDigit 'a') = (⟨"XYZ"⟩, some false)
    ∧ KeyPad.send ⟨"1234", Color.BLACK, "1234"⟩ (evDigit '5')
        = (⟨"1234", Color.BLACK, "1234"⟩, some false)
    ∧ Chest.send ⟨""⟩ evBack = (⟨""⟩, some false)
    ∧ ((KeyPad.send KeyPad.initial evBack).2 = some false
        ∧ (KeyPad.send KeyPad.initial evBack).1.textValue = "")
    ∧ ((Chest.send ⟨"AB"⟩ evBack).2 = some true
        ∧ (Chest.send ⟨"AB"⟩ evBack).1.text = pyDropLast "AB")
    ∧ ((KeyPad.send ⟨"12", Color.BLACK, "12"⟩ evBack).2 = some true
        ∧ (KeyPad.send ⟨"12", Color.BLACK, "12"⟩ evBack).1.textValue
            = pyDropLast "12") :=
  ⟨C6_buffer_bounds.1 ⟨"AY"⟩ (evDigit 'x') (by decide),
   C6_buffer_bounds.2.1 KeyPad.initial (evDigit '5') (by decide),
   C6_buffer_bounds.2.2.1 ⟨"XYZ"⟩ (evDigit 'a') 'A' (by decide) (by decide)
     (by decide) (by decide),
   C6_buffer_bounds.2.2.2.1 ⟨"1234", Color.BLACK, "1234"⟩ (evDigit '5') '5'
     (by decide) (by decide) (by decide) (by decide),
   C6_buffer_bounds.2.2.2.2.1 ⟨""⟩ evBack (by decide) rfl rfl,
   C6_buffer_bounds.2.2.2.2.2.1 KeyPad.initial evBack (by decide) rfl rfl,
   C6_buffer_bounds.2.2.2.2.2.2.1 ⟨"AB"⟩ evBack (by decide) rfl (by decide),
   C6_buffer_bounds.2.2.2.2.2.2.2 ⟨"12", Color.BLACK, "12"⟩ evBack
     (by decide) rfl (by decide)⟩

/-! Claim C7: the trichotomy of Chest.send results. -/

/-- Claim C7: `Chest.send` returns None on every event that is not a
key-down text event (wrong type, or a key-down producing no printable
character) and on every event once `opened` is true; and it returns True
exactly when the buffer content changes — a printable character appended
below the length limit or a character removed by backspace. -/
theorem C7_chest_send_contract :
    (∀ (c : Chest) (e : Event),
        e.etype ≠ EventType.KEYDOWN ∨ c.opened = true →
        Chest.send c e = (c, none))
    ∧ (∀ (c : Chest) (e : Event),
        e.key ≠ KeyCode.BACKSPACE → Chest.to_char c e = none →
        Chest.send c e = (c, none))
    ∧ (∀ (c : Chest) (e : Event),
        (Chest.send c e).2 = some true ↔ (Chest.send c e).1.text ≠ c.text)
    := by
  refine ⟨?_, ?_, ?_⟩
  · intro c e h
    rw [Chest.send]
    refine textSend_not_accepted _ _ _ _ _ _ _ ?_
    rcases h with h1 | h1 <;> simp [Chest.accept_event, h1]
  · intro c e hkey hch
    by_cases hacc : Chest.accept_event c e = true
    · rw [Chest.send]
      exact textSend_no_char _ _ _ _ _ _ _ hacc hkey hch
    · rw [Chest.send]
      exact textSend_not_accepted _ _ _ _ _ _ _ (by simpa using hacc)
  · intro c e
    rcases textSend_cases Chest.text (fun _ v => { text := v })
        Chest.accept_event Chest.to_char Chest.maxTextLength c e with
      ⟨_, hs⟩ | ⟨_, _, hs⟩ | ⟨_, _, _, hs⟩ | ⟨ch, _, _, _, _, hs⟩
        | ⟨ch, _, _, _, hl, hs⟩ <;>
      rw [Chest.send, hs]
    · simp
    · by_cases hemp : c.text = ""
      · cases c with
        | mk t =>
          have ht : t = "" := hemp
          subst ht
          simp [pyDropLast]
      · simp only [hemp, decide_not, Prod.snd, Prod.fst]
        constructor
        · intro _
          exact pyDropLast_ne c.text hemp
        · intro _
          simp [hemp]
    · simp
    · simp
    · simp [push_ne]

/-- Witness for C7 at concrete chests and events. -/
theorem C7_chest_send_contract_witness :
    Chest.send ⟨"AYP"⟩ (evDigit '1') = (⟨"AYP"⟩, none)
    ∧ Chest.send ⟨"A"⟩ ⟨EventType.KEYDOWN, KeyCode.OTHER, none⟩
        = (⟨"A"⟩, none)
    ∧ ((Chest.send ⟨"AB"⟩ (evDigit 'c')).2 = some true
        ↔ (Chest.send ⟨"AB"⟩ (evDigit 'c')).1.text ≠ ("AB" : String)) :=
  ⟨C7_chest_send_contract.1 ⟨"AYP"⟩ (evDigit '1') (Or.inr (by decide)),
   C7_chest_send_contract.2.1 ⟨"A"⟩ ⟨EventType.KEYDOWN, KeyCode.OTHER, none⟩
     (by decide) rfl,
   C7_chest_send_contract.2.2 ⟨"AB"⟩ (evDigit 'c')⟩

/-! Claim C10: the keypad's opening-input/display equivalence. -/

/-- Claim C10: the fresh keypad satisfies the invariant "before opening,
the displayed text equals the opening-input buffer"; every keypad
operation (`set_initial_text`, the `text` setter, the `text_color`
setter, `send`) preserves it; and whenever an operation turns `opened`
from false to true, the displayed text at that moment is "9710". -/
theorem C10_keypad_opening_invariant :
    KeyPadInv KeyPad.initial
    ∧ (∀ (k : KeyPad) (op : KeyPadOp),
        KeyPadInv k → KeyPadInv (k.applyOp op))
    ∧ (∀ (k : KeyPad) (op : KeyPadOp), k.opened = false →
        (k.applyOp op).opened = true → (k.applyOp op).textValue = "9710")
    := by
  have hsetText : ∀ (k : KeyPad) (v : String), k.opened = false →
      (k.setText v).textValue = (k.setText v).openingInput := by
    intro k v ho
    unfold KeyPad.setText
    rw [if_neg (by simp [ho])]
  have hsetOpen : ∀ (k : KeyPad) (v : String), k.opened = false →
      (k.setText v).opened = true → (k.setText v).textValue = "9710" := by
    intro k v ho hop
    unfold KeyPad.setText at hop ⊢
    rw [if_neg (by simp [ho])] at hop ⊢
    have hv : v = "9710" := by
      have : (({ k with textValue := v, openingInput := v } :
          KeyPad).openingInput == "9710") = true := hop
      simpa using this
    exact hv
  have hsendInv : ∀ (k : KeyPad) (e : Event),
      KeyPadInv k → KeyPadInv (k.send e).1 := by
    intro k e hinv
    rcases textSend_cases KeyPad.textValue KeyPad.setText
        KeyPad.accept_event KeyPad.to_char KeyPad.maxTextLength k e with
      ⟨_, hs⟩ | ⟨hacc, _, hs⟩ | ⟨_, _, _, hs⟩ | ⟨ch, _, _, _, _, hs⟩
        | ⟨ch, hacc, _, _, _, hs⟩ <;>
      rw [KeyPad.send] at * <;> rw [hs]
    · exact hinv
    · have ho : k.opened = false := by
        simp [KeyPad.accept_event] at hacc
        exact hacc.2
      exact fun _ => hsetText k _ ho
    · exact hinv
    · exact hinv
    · have ho : k.opened = false := by
        simp [KeyPad.accept_event] at hacc
        exact hacc.2
      exact fun _ => hsetText k _ ho
  refine ⟨fun _ => rfl, ?_, ?_⟩
  · intro k op hinv
    cases op with
    | setInitialTextOp => exact fun _ => rfl
    | setTextOp v =>
      intro hop
      by_cases ho : k.opened = true
      · exfalso
        simp only [KeyPad.applyOp] at hop
        unfold KeyPad.setText at hop
        rw [if_pos ho] at hop
        have h2 : k.opened = true := ho
        have h3 : k.opened = false := hop
        rw [h2] at h3
        exact Bool.noConfusion h3
      · exact hsetText k v (by simpa using ho)
    | setColorOp col => exact fun hop => hinv hop
    | sendOp e => exact hsendInv k e hinv
  · intro k op ho hop
    cases op with
    | setInitialTextOp =>
      exfalso
      have : ("" == "9710") = true := hop
      simp at this
    | setTextOp v => exact hsetOpen k v ho hop
    | setColorOp col =>
      exfalso
      have h2 : k.opened = true := hop
      rw [ho] at h2
      exact Bool.noConfusion h2
    | sendOp e =>
      rcases textSend_cases KeyPad.textValue KeyPad.setText
          KeyPad.accept_event KeyPad.to_char KeyPad.maxTextLength k e with
        ⟨_, hs⟩ | ⟨hacc, _, hs⟩ | ⟨_, _, _, hs⟩ | ⟨ch, _, _, _, _, hs⟩
          | ⟨ch, hacc, _, _, _, hs⟩ <;>
        simp only [KeyPad.applyOp, KeyPad.send] at hop ⊢ <;>
        rw [hs] at hop ⊢
      · exfalso
        have h2 : k.opened = true := hop
        rw [ho] at h2
        exact Bool.noConfusion h2
      · exact hsetOpen k _ ho hop
      · exfalso
        have h2 : k.opened = true := hop
        rw [ho] at h2
        exact Bool.noConfusion h2
      · exfalso
        have h2 : k.opened = true := hop
        rw [ho] at h2
        exact Bool.noConfusion h2
      · exact hsetOpen k _ ho hop

/-- Witness for C10: invariance after one setText on the fresh keypad,
and the opening moment when 9710 is assigned. -/
theorem C10_keypad_opening_invariant_witness :
    KeyPadInv (KeyPad.initial.applyOp (KeyPadOp.setTextOp "12"))
    ∧ (KeyPad.initial.applyOp (KeyPadOp.setTextOp "9710")).textValue
        = "9710" :=
  ⟨C10_keypad_opening_invariant.2.1 KeyPad.initial (KeyPadOp.setTextOp "12")
      (fun _ => rfl),
   C10_keypad_opening_invariant.2.2 KeyPad.initial
      (KeyPadOp.setTextOp "9710") (by decide) (by decide)⟩

end

end Escape
